import Mathlib

/-!
Shallow embedding of the task-management backend (FastAPI service with users,
task lists and tasks) for checking its natural-language specification.

The Python sources are embedded as executable Lean definitions:
* the domain entities (`app/domain/models/entities.py`) become structures,
* the SQL repositories (`app/infrastructure/repositories/*.py`) become pure
  functions over an explicit in-memory database state `Db`,
* the use cases (`app/application/use_cases/*.py`) become functions returning
  `Except DomainError`, mirroring the raised domain exceptions,
* `datetime.utcnow()` becomes an explicit `now : Int` parameter (UTC instant),
* the JWT layer (`app/auth/jwt_handler.py`) is embedded with signatures
  modelled as the signing key: a signature verifies iff the decoding key
  equals the key the token was signed with.
-/

set_option maxHeartbeats 1000000

namespace App

/-- Task status enum. `app/domain/models/enums.py` is absent from the source
tree (every module imports it); the four values are fixed by the spec and by
the API docstrings in `app/api/tasks.py`: pending, in_progress, completed,
cancelled. -/
inductive TaskStatus
  | pending
  | inProgress
  | completed
  | cancelled
  deriving DecidableEq, Repr

/-- Task priority enum, values fixed by the spec and the API docstrings:
low, medium, high, urgent. -/
inductive TaskPriority
  | low
  | medium
  | high
  | urgent
  deriving DecidableEq, Repr

/-- Modelled from the spec: user status enum from the missing
`app/domain/models/enums.py`; the spec fixes status ∈ (active, inactive,
suspended) with default active. -/
inductive UserStatus
  | active
  | inactive
  | suspended
  deriving DecidableEq, Repr

/-- `User` entity from `app/domain/models/entities.py`. The Python entity has
`id`, `created_at`, `updated_at` optional; in the embedding a stored user
always carries its id and creation instant, matching every record produced by
the repository. -/
structure User where
  id : Int
  username : String
  email : String
  full_name : String
  password_hash : Option String
  status : UserStatus
  created_at : Int
  updated_at : Option Int
  deriving DecidableEq, Repr

/-- `Task` entity from `app/domain/models/entities.py`. -/
structure Task where
  id : Int
  title : String
  description : Option String
  status : TaskStatus
  priority : TaskPriority
  due_date : Option Int
  task_list_id : Int
  assigned_user_id : Option Int
  created_at : Int
  updated_at : Int
  deriving DecidableEq, Repr

/-- `TaskList` entity from `app/domain/models/entities.py`; `tasks` is the
back-reference list, default empty. -/
structure TaskList where
  id : Int
  name : String
  description : Option String
  created_at : Int
  updated_at : Option Int
  tasks : List Task
  deriving DecidableEq, Repr

/-- In-memory database state standing for the SQL store behind the
repositories; `next_id` models the autoincrement primary key counter. -/
structure Db where
  users : List User
  task_lists : List TaskList
  tasks : List Task
  next_id : Int
  deriving DecidableEq, Repr

/-- Domain exception taxonomy from `app/domain/exceptions.py` (only the kinds
the embedded use cases raise). `valueError` stands for the plain Python
`ValueError` the SQL repositories raise on update of a missing row. -/
inductive DomainError
  | invalidData
  | entityNotFound
  | duplicateEntity
  | taskListNotFound
  | taskListNameExists
  | valueError
  deriving DecidableEq, Repr

/-- Python `str.strip()`: drop leading and trailing whitespace. -/
def py_strip (s : String) : String :=
  ⟨((s.data.dropWhile Char.isWhitespace).reverse.dropWhile Char.isWhitespace).reverse⟩

/-- Python `str.lower()`. -/
def py_lower (s : String) : String := ⟨s.data.map Char.toLower⟩

/-- Python `c in s` for a one-character needle. -/
def py_contains_char (s : String) (c : Char) : Bool := s.data.any (fun d => d = c)

/-- Python truthiness of an `Optional[int]`: `None` and `0` are falsy. The SQL
repositories guard their `exclude_id` filters with `if exclude_id:`. -/
def int_truthy : Option Int → Bool
  | none => false
  | some i => i != 0

/-- Case analysis on an optional value (the `if x is not None` pattern of
the update endpoints). -/
def apply_opt {A B : Type} : Option A → B → (A → B) → B
  | none, d, _ => d
  | some x, _, f => f x

/-! ## SQL repositories (`app/infrastructure/repositories/*.py`) -/

/-- `SQLUserRepository.get_by_id`. -/
def user_get_by_id (db : Db) (user_id : Int) : Option User :=
  db.users.find? (fun u => u.id = user_id)

/-- `SQLUserRepository.get_by_username`. -/
def user_get_by_username (db : Db) (username : String) : Option User :=
  db.users.find? (fun u => u.username = username)

/-- `SQLUserRepository.get_by_email`. -/
def user_get_by_email (db : Db) (email : String) : Option User :=
  db.users.find? (fun u => u.email = email)

/-- `SQLUserRepository.exists_by_username`; the `exclude_id` filter is only
applied when `exclude_id` is truthy, as in the source. -/
def user_exists_by_username (db : Db) (username : String) (exclude_id : Option Int) : Bool :=
  db.users.any (fun u =>
    u.username = username ∧ (int_truthy exclude_id → u.id ≠ exclude_id.getD 0))

/-- `SQLUserRepository.exists_by_email`. -/
def user_exists_by_email (db : Db) (email : String) (exclude_id : Option Int) : Bool :=
  db.users.any (fun u =>
    u.email = email ∧ (int_truthy exclude_id → u.id ≠ exclude_id.getD 0))

/-- `SQLUserRepository.create`. The source builds the `UserModel` row from
username, email, full_name, status and the timestamps only: the entity's
`password_hash` is not copied into the row, and `_to_domain` does not read the
column either, so the stored and returned user always has `password_hash`
`None`. -/
def user_create (db : Db) (user : User) : Db × User :=
  let row : User := { user with id := db.next_id, password_hash := none }
  ({ db with users := db.users ++ [row], next_id := db.next_id + 1 }, row)

/-- `SQLTaskListRepository.get_by_id` (lookup by primary key). -/
def task_list_get_by_id (db : Db) (task_list_id : Int) : Option TaskList :=
  db.task_lists.find? (fun l => l.id = task_list_id)

/-- `SQLTaskRepository.get_by_id`. -/
def task_get_by_id (db : Db) (task_id : Int) : Option Task :=
  db.tasks.find? (fun t => t.id = task_id)

/-- `SQLTaskRepository.get_by_task_list_id`: all rows of the list, no other
filter. -/
def task_get_by_task_list_id (db : Db) (task_list_id : Int) : List Task :=
  db.tasks.filter (fun t => t.task_list_id = task_list_id)

/-- `SQLTaskRepository.get_filtered_tasks`: starts from the rows of the list
and conjoins one filter per truthy argument (`if status:`, `if priority:`,
`if assigned_user_id:` in the source; a present enum is always truthy, an
assigned id of 0 is falsy). -/
def task_get_filtered_tasks (db : Db) (task_list_id : Int) (status : Option TaskStatus)
    (priority : Option TaskPriority) (assigned_user_id : Option Int) : List Task :=
  let q := db.tasks.filter (fun t => t.task_list_id = task_list_id)
  let q := match status with
    | some s => q.filter (fun t => t.status = s)
    | none => q
  let q := match priority with
    | some p => q.filter (fun t => t.priority = p)
    | none => q
  let q := if int_truthy assigned_user_id then
      q.filter (fun t => t.assigned_user_id = assigned_user_id)
    else q
  q

/-- `SQLTaskRepository.exists_by_title_in_list`. -/
def task_exists_by_title_in_list (db : Db) (title : String) (task_list_id : Int)
    (exclude_id : Option Int) : Bool :=
  db.tasks.any (fun t =>
    t.title = title ∧ t.task_list_id = task_list_id ∧
      (int_truthy exclude_id → t.id ≠ exclude_id.getD 0))

/-- `SQLTaskRepository.create`: insert with a fresh primary key. -/
def task_create_row (db : Db) (task : Task) : Db × Task :=
  let row : Task := { task with id := db.next_id }
  ({ db with tasks := db.tasks ++ [row], next_id := db.next_id + 1 }, row)

/-- `SQLTaskRepository.update`: rewrite the row with the entity's fields;
raises `ValueError` when the id is absent. -/
def task_update_row (db : Db) (task : Task) : Except DomainError (Db × Task) :=
  match task_get_by_id db task.id with
  | none => .error .valueError
  | some _ =>
      .ok ({ db with tasks := db.tasks.map (fun t => if t.id = task.id then task else t) }, task)

/-- `SQLTaskRepository.assign_user`: set `assigned_user_id` (possibly to
`None`) and refresh `updated_at`; raises `ValueError` when the id is absent. -/
def task_assign_user_row (db : Db) (now : Int) (task_id : Int) (user_id : Option Int) :
    Except DomainError (Db × Task) :=
  match task_get_by_id db task_id with
  | none => .error .valueError
  | some t =>
      let t' : Task := { t with assigned_user_id := user_id, updated_at := now }
      .ok ({ db with tasks := db.tasks.map (fun u => if u.id = task_id then t' else u) }, t')

/-! ## User use cases (`app/application/use_cases/user.py`) -/

/-- `UserUseCases.create_user` as it stands in the source: parameters are
username, email, full_name and status only — the function accepts no
password hash and never sets one on the entity it builds. -/
def create_user (db : Db) (now : Int) (username email full_name : String)
    (status : UserStatus) : Except DomainError (Db × User) :=
  if username = "" ∨ (py_strip username).length < 3 then .error .invalidData
  else if email = "" ∨ ¬ py_contains_char email '@' then .error .invalidData
  else if full_name = "" ∨ (py_strip full_name).length < 1 then .error .invalidData
  else if user_exists_by_username db (py_strip username) none then .error .duplicateEntity
  else if user_exists_by_email db (py_lower (py_strip email)) none then .error .duplicateEntity
  else
    let user : User :=
      { id := 0
        username := py_strip username
        email := py_lower (py_strip email)
        full_name := py_strip full_name
        password_hash := none
        status := status
        created_at := now
        updated_at := some now }
    .ok (user_create db user)

/-- `UserUseCases.get_user_by_id`. -/
def get_user_by_id (db : Db) (user_id : Int) : Except DomainError User :=
  if user_id ≤ 0 then .error .invalidData
  else match user_get_by_id db user_id with
    | none => .error .entityNotFound
    | some u => .ok u

/-! ## Task list use cases (`app/application/use_cases/task_list.py`) -/

/-- `TaskListUseCases.get_task_list_with_completion_stats`: fetch-or-fail the
list, read all its tasks (plain `get_by_task_list_id`, no filter), compute
`completed / total * 100` with an explicit `0.0` when the list has no tasks,
attach the tasks to the entity and return both the entity and the
percentage. -/
def get_task_list_with_completion_stats (db : Db) (task_list_id : Int) :
    Except DomainError (TaskList × ℚ) :=
  match task_list_get_by_id db task_list_id with
  | none => .error .taskListNotFound
  | some task_list =>
      let tasks := task_get_by_task_list_id db task_list_id
      let total_tasks : ℚ := tasks.length
      let completed_tasks : ℚ := (tasks.filter (fun t => t.status = .completed)).length
      let completion_percentage : ℚ :=
        if 0 < tasks.length then completed_tasks / total_tasks * 100 else 0
      .ok ({ task_list with tasks := tasks }, completion_percentage)

/-! ## Task use cases (`app/application/use_cases/task.py`) -/

/-- `TaskUseCases.get_task_by_id`. -/
def get_task_by_id (db : Db) (task_id : Int) : Except DomainError Task :=
  if task_id ≤ 0 then .error .invalidData
  else match task_get_by_id db task_id with
    | none => .error .entityNotFound
    | some t => .ok t

/-- `TaskUseCases.create_task`, line for line: validate title, description and
`task_list_id > 0`; fetch-or-fail the task list; duplicate-title check;
optional assigned-user validation; build the entity with status pending and
both timestamps `now`; persist. The source performs no due-date validation. -/
def create_task (db : Db) (now : Int) (title description : String) (task_list_id : Int)
    (priority : TaskPriority) (due_date : Option Int) (assigned_user_id : Option Int) :
    Except DomainError (Db × Task) :=
  if title = "" ∨ (py_strip title).length < 1 then .error .invalidData
  else if description = "" ∨ (py_strip description).length < 1 then .error .invalidData
  else if task_list_id ≤ 0 then .error .invalidData
  else match task_list_get_by_id db task_list_id with
    | none => .error .entityNotFound
    | some _ =>
        if task_exists_by_title_in_list db (py_strip title) task_list_id none then
          .error .duplicateEntity
        else match assigned_user_id with
          | some a =>
              if a ≤ 0 then .error .invalidData
              else (match user_get_by_id db a with
                | none => .error .entityNotFound
                | some _ => .ok (task_create_row db
                    { id := 0
                      title := py_strip title
                      description := some (py_strip description)
                      status := .pending
                      priority := priority
                      due_date := due_date
                      task_list_id := task_list_id
                      assigned_user_id := assigned_user_id
                      created_at := now
                      updated_at := now }))
          | none => .ok (task_create_row db
              { id := 0
                title := py_strip title
                description := some (py_strip description)
                status := .pending
                priority := priority
                due_date := due_date
                task_list_id := task_list_id
                assigned_user_id := none
                created_at := now
                updated_at := now })

/-- `TaskUseCases.get_tasks_by_list_id`: validate the id, fetch-or-fail the
task list, validate the optional assigned user, then delegate to the
repository filtered query. -/
def get_tasks_by_list_id (db : Db) (task_list_id : Int) (status : Option TaskStatus)
    (priority : Option TaskPriority) (assigned_user_id : Option Int) :
    Except DomainError (List Task) :=
  if task_list_id ≤ 0 then .error .invalidData
  else match task_list_get_by_id db task_list_id with
    | none => .error .entityNotFound
    | some _ =>
        match assigned_user_id with
        | some a =>
            if a ≤ 0 then .error .invalidData
            else (match user_get_by_id db a with
              | none => .error .entityNotFound
              | some _ => .ok (task_get_filtered_tasks db task_list_id status priority
                  assigned_user_id))
        | none => .ok (task_get_filtered_tasks db task_list_id status priority none)

/-- One per-field step of `TaskUseCases.update_task` for the title: validate
non-empty, duplicate check excluding the task itself, then set the trimmed
title. -/
def update_task_title_step (db : Db) (task : Task) (task_id : Int) (title : Option String) :
    Except DomainError Task :=
  match title with
  | none => .ok task
  | some s =>
      if (py_strip s).length < 1 then .error .invalidData
      else if task_exists_by_title_in_list db (py_strip s) task.task_list_id (some task_id) then
        .error .duplicateEntity
      else .ok { task with title := py_strip s }

/-- One per-field step of `TaskUseCases.update_task` for the description:
validate non-empty, set the trimmed description. -/
def update_task_description_step (task : Task) (description : Option String) :
    Except DomainError Task :=
  match description with
  | none => .ok task
  | some d =>
      if (py_strip d).length < 1 then .error .invalidData
      else .ok { task with description := some (py_strip d) }

/-- One per-field step of `TaskUseCases.update_task` for the assigned user:
validate positive id and existing user, then set the assignment. -/
def update_task_assigned_step (db : Db) (task : Task) (assigned_user_id : Option Int) :
    Except DomainError Task :=
  match assigned_user_id with
  | none => .ok task
  | some a =>
      if a ≤ 0 then .error .invalidData
      else match user_get_by_id db a with
        | none => .error .entityNotFound
        | some _ => .ok { task with assigned_user_id := some a }

/-- `TaskUseCases.update_task`: fetch-or-fail, then apply each supplied field
in source order (`None` means the field was not provided), validate the
optional assigned user, refresh `updated_at` and persist through the
repository. The source re-validates neither the stored nor a newly supplied
due date. -/
def update_task (db : Db) (now : Int) (task_id : Int) (title : Option String)
    (description : Option String) (priority : Option TaskPriority) (due_date : Option Int)
    (assigned_user_id : Option Int) : Except DomainError (Db × Task) := do
  let task ← get_task_by_id db task_id
  let task ← update_task_title_step db task task_id title
  let task ← update_task_description_step task description
  let task := match priority with
    | none => task
    | some p => { task with priority := p }
  let task := match due_date with
    | none => task
    | some d => { task with due_date := some d }
  let task ← update_task_assigned_step db task assigned_user_id
  task_update_row db { task with updated_at := now }

/-- `TaskUseCases.assign_task_to_user`: fetch-or-fail the task, validate the
optional user (positive id, existing record), then delegate the write to the
repository. The repository write is the last step: a failed validation
returns before any mutation. -/
def assign_task_to_user (db : Db) (now : Int) (task_id : Int) (user_id : Option Int) :
    Except DomainError (Db × Task) := do
  let _ ← get_task_by_id db task_id
  match user_id with
  | some u =>
      if u ≤ 0 then .error .invalidData
      else (match user_get_by_id db u with
        | none => .error .entityNotFound
        | some _ => task_assign_user_row db now task_id user_id)
  | none => task_assign_user_row db now task_id none

/-! ## Decimal string codec: Python `str(int)` and `int(str)` -/

/-- ASCII digit character of `d < 10`, as written by Python `str`. -/
def py_digit_char (d : Nat) : Char := Char.ofNat (48 + d)

/-- Numeric value of an ASCII digit character, inverse of `py_digit_char`. -/
def py_char_digit (c : Char) : Nat := c.toNat - 48

/-- `48 ≤ c.toNat ≤ 57`: the digit test used by the embedded `int(...)`. -/
def py_is_digit (c : Char) : Bool := 48 ≤ c.toNat && c.toNat ≤ 57

/-- Big-endian decimal digits of a natural number, as Python `str` writes
them. -/
def py_nat_chars (n : Nat) : List Char :=
  if h : n < 10 then [py_digit_char n]
  else py_nat_chars (n / 10) ++ [py_digit_char (n % 10)]
termination_by n
decreasing_by
  exact Nat.div_lt_self (by omega) (by omega)

/-- Python `str(i)` on an `int`. -/
def py_str_int (i : Int) : String :=
  if i < 0 then ⟨'-' :: py_nat_chars i.natAbs⟩ else ⟨py_nat_chars i.toNat⟩

/-- Decimal value of a digit string, `None` when empty or not all digits:
the core of Python `int(...)` (which raises `ValueError` otherwise). -/
def py_parse_nat (cs : List Char) : Option Nat :=
  if cs ≠ [] ∧ cs.all py_is_digit then
    some (cs.foldl (fun n c => 10 * n + py_char_digit c) 0)
  else none

/-- Python `int(s)` on a canonical decimal string, with an optional leading
minus sign; `None` models the `ValueError` path. -/
def py_int_of_string (s : String) : Option Int :=
  match s.data with
  | [] => none
  | c :: rest =>
      if c = '-' then
        match py_parse_nat rest with
        | none => none
        | some n => some (-(n : Int))
      else
        match py_parse_nat (c :: rest) with
        | none => none
        | some n => some ((n : Int))

/-! ## JWT layer (`app/auth/jwt_handler.py`)

A token is its claim set together with the key it was signed with; decoding
with a key succeeds only on a well-formed token signed with that same key,
which models signature verification. A token whose signature was altered is a
token that no key of the honest service signed, i.e. `signed payload k` with
`k ≠ SECRET_KEY`, or `malformed`. -/

/-- The claim set the handler puts in a token: the subject claim `sub` (a
string, absent when the caller's data lacks it) and the expiry `exp` (a UTC
instant). -/
structure JwtPayload where
  sub : Option String
  exp : Int
  deriving DecidableEq, Repr

/-- An encoded token. -/
inductive Jwt
  | signed (payload : JwtPayload) (key : String)
  | malformed (raw : String)
  deriving DecidableEq, Repr

/-- Default signing key from the module configuration. -/
def SECRET_KEY : String := "change-in-production"

/-- `ACCESS_TOKEN_EXPIRE_MINUTES` default, in seconds. -/
def ACCESS_TOKEN_EXPIRE_SECONDS : Int := 30 * 60

/-- The single error the auth layer surfaces: HTTP 401. -/
inductive AuthError
  | unauthorized
  deriving DecidableEq, Repr

/-- `create_access_token`: add the expiry claim (`now` plus the supplied
delta when truthy, else the configured default) and sign with `SECRET_KEY`.
`expires_delta` is in seconds; a zero timedelta is falsy in Python and falls
back to the default, as in the source. -/
def create_access_token (sub : Option String) (now : Int) (expires_delta : Option Int) : Jwt :=
  let expire : Int :=
    if int_truthy expires_delta then now + (expires_delta.getD 0)
    else now + ACCESS_TOKEN_EXPIRE_SECONDS
  .signed { sub := sub, exp := expire } SECRET_KEY

/-- `decode_access_token`: `jwt.decode` with `SECRET_KEY` validates the
signature and the expiry claim (`jose` rejects a token whose `exp` is before
`now`); any `JWTError` — bad signature, malformed token, expired token —
becomes HTTP 401. -/
def decode_access_token (token : Jwt) (now : Int) : Except AuthError JwtPayload :=
  match token with
  | .malformed _ => .error .unauthorized
  | .signed payload key =>
      if key ≠ SECRET_KEY then .error .unauthorized
      else if payload.exp < now then .error .unauthorized
      else .ok payload

/-- `get_user_id_from_token`: decode, then read the `sub` claim — absent
`sub` is 401 — and parse it as an int — `ValueError` is 401. -/
def get_user_id_from_token (token : Jwt) (now : Int) : Except AuthError Int := do
  let payload ← decode_access_token token now
  match payload.sub with
  | none => .error .unauthorized
  | some s =>
      match py_int_of_string s with
      | none => .error .unauthorized
      | some i => .ok i

/-! ## Authentication flow (`app/api/auth.py`) -/

/-- Modelled from the spec: `UserUseCases.authenticate_user(identifier)` —
look up by username, on not-found look up by email, return `None` (not an
error) when neither matches. The method is called by `app/api/auth.py` and
exercised by `tests/unit/application/test_user_use_cases.py`, but the
`UserUseCases` class in the source tree does not define it. -/
def authenticate_user (db : Db) (identifier : String) : Option User :=
  match user_get_by_username db identifier with
  | some u => some u
  | none => user_get_by_email db identifier

/-- Login failure: HTTP 401 with a generic wrong-credentials message. -/
inductive LoginError
  | invalidCredentials
  deriving DecidableEq, Repr

/-- The `login` endpoint body: authenticate by username-or-email; a missing
user or a falsy stored `password_hash` (absent or empty string) is 401;
a failed password verification is 401; otherwise issue a token whose `sub`
claim is `str(user.id)`. `verify` is the opaque bcrypt verifier
(`app/auth/password_handler.py`), passed as a parameter. -/
def login (db : Db) (now : Int) (verify : String → String → Bool)
    (username password : String) : Except LoginError (Jwt × User) :=
  match authenticate_user db username with
  | none => .error .invalidCredentials
  | some user =>
      match user.password_hash with
      | none => .error .invalidCredentials
      | some h =>
          if h = "" then .error .invalidCredentials
          else if verify password h then
            .ok (create_access_token (some (py_str_int user.id)) now none, user)
          else .error .invalidCredentials

/-! ## Notification-aware task creation and the stats endpoint -/

/-- Modelled from the spec: the notification-aware variant of
`TaskUseCases.create_task`. The unit tests construct `TaskUseCases` with an
`email_service` collaborator and assert `send_task_assignment_email` is
called exactly when the created task has an assignee; that variant of the
class is missing from the source tree (the file under `src` holds the
three-repository variant with no notifier). Per the spec the notification is
fire-and-forget: `notifier_ok` is the notifier outcome and must not affect
the creation result. The returned boolean reports whether a notification was
triggered. -/
def create_task_notify (db : Db) (now : Int) (title description : String)
    (task_list_id : Int) (priority : TaskPriority) (due_date : Option Int)
    (assigned_user_id : Option Int) (notifier_ok : Bool) :
    Except DomainError (Db × Task × Bool) :=
  match create_task db now title description task_list_id priority due_date assigned_user_id with
  | .error e => .error e
  | .ok (db', task) =>
      match task.assigned_user_id with
      | some _ =>
          let _outcome := notifier_ok
          .ok (db', task, true)
      | none => .ok (db', task, false)

/-- The completion-percentage computation of the list-tasks handler
(`app/api/tasks.py`, `get_tasks_by_list`): the returned tasks honour the
caller's filters, but the percentage is recomputed from a second, filterless
`get_tasks_by_list_id` call over the whole list. -/
def endpoint_tasks_with_stats (db : Db) (task_list_id : Int) (status : Option TaskStatus)
    (priority : Option TaskPriority) (assigned_user_id : Option Int) :
    Except DomainError (List Task × ℚ) := do
  let tasks ← get_tasks_by_list_id db task_list_id status priority assigned_user_id
  let all_tasks ← get_tasks_by_list_id db task_list_id none none none
  let total_tasks : ℚ := all_tasks.length
  let completed_tasks : ℚ := (all_tasks.filter (fun t => t.status = .completed)).length
  let completion_percentage : ℚ :=
    if 0 < all_tasks.length then completed_tasks / total_tasks * 100 else 0
  pure (tasks, completion_percentage)

/-! ## Round trip of the decimal codec -/

theorem py_int_of_string_cons (c : Char) (rest : List Char) :
    py_int_of_string ⟨c :: rest⟩ =
      if c = '-' then
        match py_parse_nat rest with
        | none => none
        | some n => some (-(n : Int))
      else
        match py_parse_nat (c :: rest) with
        | none => none
        | some n => some ((n : Int)) := rfl

theorem py_char_digit_digit (d : Nat) (h : d < 10) : py_char_digit (py_digit_char d) = d := by
  interval_cases d <;> decide

theorem py_is_digit_digit (d : Nat) (h : d < 10) : py_is_digit (py_digit_char d) = true := by
  interval_cases d <;> decide

theorem py_nat_chars_ne_nil (n : Nat) : py_nat_chars n ≠ [] := by
  unfold py_nat_chars
  split <;> simp

theorem py_nat_chars_all_digits (n : Nat) : (py_nat_chars n).all py_is_digit = true := by
  induction n using Nat.strong_induction_on with
  | _ n ih =>
    unfold py_nat_chars
    split
    · next h => simp [py_is_digit_digit n h]
    · next h =>
      have hd := ih (n / 10) (Nat.div_lt_self (by omega) (by omega))
      simp only [List.all_append, hd, Bool.true_and, List.all_cons, List.all_nil]
      simp [py_is_digit_digit (n % 10) (Nat.mod_lt _ (by omega))]

theorem py_nat_chars_foldl (n : Nat) : ∀ acc : Nat,
    (py_nat_chars n).foldl (fun m c => 10 * m + py_char_digit c) acc
      = acc * 10 ^ (py_nat_chars n).length + n := by
  induction n using Nat.strong_induction_on with
  | _ n ih =>
    intro acc
    unfold py_nat_chars
    split
    · next h =>
      simp [List.foldl, py_char_digit_digit n h]
      ring
    · next h =>
      have hd := ih (n / 10) (Nat.div_lt_self (by omega) (by omega))
      rw [List.foldl_append, hd acc]
      simp only [List.foldl, List.length_append, List.length_cons, List.length_nil]
      rw [py_char_digit_digit (n % 10) (Nat.mod_lt _ (by omega))]
      have : acc * 10 ^ ((py_nat_chars (n / 10)).length + (0 + 1))
          = acc * 10 ^ (py_nat_chars (n / 10)).length * 10 := by ring
      rw [this]
      have hmod := Nat.div_add_mod n 10
      omega

theorem py_parse_nat_chars (n : Nat) : py_parse_nat (py_nat_chars n) = some n := by
  unfold py_parse_nat
  rw [if_pos ⟨py_nat_chars_ne_nil n, py_nat_chars_all_digits n⟩]
  rw [py_nat_chars_foldl n 0]
  simp

theorem py_nat_chars_head_digit (n : Nat) (c : Char) (rest : List Char)
    (h : py_nat_chars n = c :: rest) : py_is_digit c = true := by
  have := py_nat_chars_all_digits n
  rw [h] at this
  simp only [List.all_cons, Bool.and_eq_true] at this
  exact this.1

theorem py_int_of_string_py_str_int (i : Int) : py_int_of_string (py_str_int i) = some i := by
  unfold py_str_int
  split
  · next hneg =>
    show py_int_of_string ⟨'-' :: py_nat_chars i.natAbs⟩ = some i
    rw [py_int_of_string_cons, if_pos rfl, py_parse_nat_chars]
    show some (-(i.natAbs : Int)) = some i
    congr 1
    omega
  · next hpos =>
    show py_int_of_string ⟨py_nat_chars i.toNat⟩ = some i
    cases hc : py_nat_chars i.toNat with
    | nil => exact absurd hc (py_nat_chars_ne_nil _)
    | cons c rest =>
      have hdig := py_nat_chars_head_digit _ _ _ hc
      have hcne : c ≠ '-' := by
        intro he
        rw [he] at hdig
        exact absurd hdig (by decide)
      rw [py_int_of_string_cons, if_neg hcne, ← hc, py_parse_nat_chars]
      show some ((i.toNat : Int)) = some i
      congr 1
      omega

/-! ## Claim theorems -/

/-- Expiry instant `create_access_token` writes into the token: `now` plus
the supplied delta when truthy, else the configured default TTL. -/
theorem create_access_token_eq (sub : Option String) (now : Int) (expires_delta : Option Int) :
    create_access_token sub now expires_delta =
      .signed { sub := sub
                exp := if int_truthy expires_delta then now + expires_delta.getD 0
                       else now + ACCESS_TOKEN_EXPIRE_SECONDS } SECRET_KEY := rfl

/-- Helper: a well-formed unexpired token signed with the service key and
carrying `str(uid)` as subject decodes to `uid`. -/
theorem get_user_id_from_token_ok (uid E check : Int) (h : ¬ E < check) :
    get_user_id_from_token (.signed { sub := some (py_str_int uid), exp := E } SECRET_KEY) check
      = .ok uid := by
  simp [get_user_id_from_token, decode_access_token, h, py_int_of_string_py_str_int,
    bind, Except.bind]

/-- C7: decoding a token freshly issued with subject `str(user_id)` within
its TTL yields back exactly that user id; a token signed with a key other
than the service key (an altered signature), a malformed token, and an
expired token are each rejected with 401; a well-formed unexpired token
whose payload lacks the `sub` claim is also rejected with 401. -/
theorem token_round_trip_and_rejection :
    (∀ (uid now expires_delta check : Int),
        ¬ ((if int_truthy (some expires_delta) then now + expires_delta
            else now + ACCESS_TOKEN_EXPIRE_SECONDS) < check) →
        get_user_id_from_token
          (create_access_token (some (py_str_int uid)) now (some expires_delta)) check
          = .ok uid)
    ∧ (∀ (uid now check : Int),
        ¬ (now + ACCESS_TOKEN_EXPIRE_SECONDS < check) →
        get_user_id_from_token (create_access_token (some (py_str_int uid)) now none) check
          = .ok uid)
    ∧ (∀ (p : JwtPayload) (k : String) (check : Int), k ≠ SECRET_KEY →
        decode_access_token (.signed p k) check = .error .unauthorized)
    ∧ (∀ (raw : String) (check : Int),
        decode_access_token (.malformed raw) check = .error .unauthorized)
    ∧ (∀ (p : JwtPayload) (check : Int), p.exp < check →
        decode_access_token (.signed p SECRET_KEY) check = .error .unauthorized)
    ∧ (∀ (e check : Int), ¬ (e < check) →
        get_user_id_from_token (.signed { sub := none, exp := e } SECRET_KEY) check
          = .error .unauthorized) := by
  refine ⟨?_, ?_, ?_, ?_, ?_, ?_⟩
  · intro uid now expires_delta check hlt
    have he : create_access_token (some (py_str_int uid)) now (some expires_delta)
        = .signed { sub := some (py_str_int uid)
                    exp := if int_truthy (some expires_delta) then now + expires_delta
                           else now + ACCESS_TOKEN_EXPIRE_SECONDS } SECRET_KEY := rfl
    rw [he]
    exact get_user_id_from_token_ok uid _ check hlt
  · intro uid now check hlt
    have he : create_access_token (some (py_str_int uid)) now none
        = .signed { sub := some (py_str_int uid)
                    exp := now + ACCESS_TOKEN_EXPIRE_SECONDS } SECRET_KEY := rfl
    rw [he]
    exact get_user_id_from_token_ok uid _ check hlt
  · intro p k check hk
    simp [decode_access_token, hk]
  · intro raw check
    simp [decode_access_token]
  · intro p check hexp
    simp [decode_access_token, hexp]
  · intro e check hlt
    simp [get_user_id_from_token, decode_access_token, hlt, bind, Except.bind]

/-- Witness for C7 at concrete inputs: user id 5, issued at 0 with the
default TTL, checked at 100; and an expired concrete token rejected. -/
theorem token_round_trip_and_rejection_witness :
    get_user_id_from_token (create_access_token (some (py_str_int 5)) 0 none) 100 = .ok 5
    ∧ decode_access_token (.signed { sub := some "5", exp := 3 } SECRET_KEY) 100
        = .error .unauthorized :=
  ⟨token_round_trip_and_rejection.2.1 5 0 100 (by decide),
   token_round_trip_and_rejection.2.2.2.2.1 { sub := some "5", exp := 3 } 100 (by decide)⟩

/-- C2: login flow — the user is looked up by username then by email; a
missing user or a stored record without a usable password hash fails with
`InvalidCredentials` (401); a password that does not verify against the
stored hash fails with `InvalidCredentials`; otherwise login succeeds and
the issued token's subject claim is `str(user.id)`, which parses back to the
user's id. -/
theorem login_flow_spec :
    ∀ (db : Db) (now : Int) (verify : String → String → Bool) (ident pw : String),
      (∀ u, user_get_by_username db ident = some u → authenticate_user db ident = some u)
      ∧ (user_get_by_username db ident = none →
          authenticate_user db ident = user_get_by_email db ident)
      ∧ (authenticate_user db ident = none →
          login db now verify ident pw = .error .invalidCredentials)
      ∧ (∀ u, authenticate_user db ident = some u → u.password_hash = none →
          login db now verify ident pw = .error .invalidCredentials)
      ∧ (∀ u h, authenticate_user db ident = some u → u.password_hash = some h →
          verify pw h = false → login db now verify ident pw = .error .invalidCredentials)
      ∧ (∀ u h, authenticate_user db ident = some u → u.password_hash = some h → h ≠ "" →
          verify pw h = true →
          login db now verify ident pw =
            .ok (create_access_token (some (py_str_int u.id)) now none, u)
            ∧ py_int_of_string (py_str_int u.id) = some u.id) := by
  intro db now verify ident pw
  refine ⟨?_, ?_, ?_, ?_, ?_, ?_⟩
  · intro u hu
    simp [authenticate_user, hu]
  · intro hn
    simp [authenticate_user, hn]
  · intro hn
    simp [login, hn]
  · intro u hu hh
    simp [login, hu, hh]
  · intro u h hu hh hv
    by_cases he : h = ""
    · subst he
      simp [login, hu, hh]
    · simp [login, hu, hh, he, hv]
  · intro u h hu hh he hv
    refine ⟨?_, py_int_of_string_py_str_int u.id⟩
    simp [login, hu, hh, he, hv]

/-- Witness for C2: one stored user with a non-empty hash, a verifier that
accepts exactly the right password: login succeeds with the expected token;
and with the wrong password it fails with 401. -/
theorem login_flow_spec_witness :
    (login
        { users := [{ id := 7, username := "bob", email := "bob@example.com",
                      full_name := "Bob B", password_hash := some "h1",
                      status := .active, created_at := 0, updated_at := none }],
          task_lists := [], tasks := [], next_id := 2 }
        0 (fun p h => p = "pw" ∧ h = "h1") "bob" "pw"
      = .ok (create_access_token (some (py_str_int 7)) 0 none,
             { id := 7, username := "bob", email := "bob@example.com",
               full_name := "Bob B", password_hash := some "h1",
               status := .active, created_at := 0, updated_at := none }))
    ∧ (login
        { users := [{ id := 7, username := "bob", email := "bob@example.com",
                      full_name := "Bob B", password_hash := some "h1",
                      status := .active, created_at := 0, updated_at := none }],
          task_lists := [], tasks := [], next_id := 2 }
        0 (fun p h => p = "pw" ∧ h = "h1") "bob" "wrong"
      = .error .invalidCredentials) := by
  constructor
  · exact ((login_flow_spec
      { users := [{ id := 7, username := "bob", email := "bob@example.com",
                    full_name := "Bob B", password_hash := some "h1",
                    status := .active, created_at := 0, updated_at := none }],
        task_lists := [], tasks := [], next_id := 2 }
      0 (fun p h => p = "pw" ∧ h = "h1") "bob" "pw").2.2.2.2.2
      { id := 7, username := "bob", email := "bob@example.com",
        full_name := "Bob B", password_hash := some "h1",
        status := .active, created_at := 0, updated_at := none }
      "h1" (by decide) rfl (by decide) (by decide)).1
  · exact (login_flow_spec
      { users := [{ id := 7, username := "bob", email := "bob@example.com",
                    full_name := "Bob B", password_hash := some "h1",
                    status := .active, created_at := 0, updated_at := none }],
        task_lists := [], tasks := [], next_id := 2 }
      0 (fun p h => p = "pw" ∧ h = "h1") "bob" "wrong").2.2.2.2.1
      { id := 7, username := "bob", email := "bob@example.com",
        full_name := "Bob B", password_hash := some "h1",
        status := .active, created_at := 0, updated_at := none }
      "h1" (by decide) rfl (by decide)

/-- C8: for every input whose trimmed username has at least 3 characters,
whose email contains an at sign, whose trimmed full name is non-empty, and
where neither the trimmed username nor the normalized email is already
taken, `create_user` succeeds and the returned record has the email trimmed
and lowercased, the username and full name trimmed, and
`created_at = updated_at = now`. -/
theorem create_user_valid_input_succeeds :
    ∀ (db : Db) (now : Int) (username email full_name : String) (status : UserStatus),
      3 ≤ (py_strip username).length →
      py_contains_char email '@' = true →
      1 ≤ (py_strip full_name).length →
      user_exists_by_username db (py_strip username) none = false →
      user_exists_by_email db (py_lower (py_strip email)) none = false →
      create_user db now username email full_name status =
        .ok ({ db with
                users := db.users ++
                  [{ id := db.next_id, username := py_strip username,
                     email := py_lower (py_strip email), full_name := py_strip full_name,
                     password_hash := none, status := status,
                     created_at := now, updated_at := some now }],
                next_id := db.next_id + 1 },
             { id := db.next_id, username := py_strip username,
               email := py_lower (py_strip email), full_name := py_strip full_name,
               password_hash := none, status := status,
               created_at := now, updated_at := some now }) := by
  intro db now username email full_name status h1 h2 h3 h4 h5
  have c1 : ¬ (username = "" ∨ (py_strip username).length < 3) := by
    rintro (rfl | hlt)
    · exact absurd h1 (by decide)
    · omega
  have c2 : ¬ (email = "" ∨ ¬ py_contains_char email '@') := by
    rintro (rfl | hnc)
    · exact absurd h2 (by decide)
    · exact hnc h2
  have c3 : ¬ (full_name = "" ∨ (py_strip full_name).length < 1) := by
    rintro (rfl | hlt)
    · exact absurd h3 (by decide)
    · omega
  rw [create_user, if_neg c1, if_neg c2, if_neg c3, if_neg (by rw [h4]; exact Bool.false_ne_true),
    if_neg (by rw [h5]; exact Bool.false_ne_true)]
  rfl

/-- Witness for C8: fresh store, username and email carrying whitespace and
upper case that the use case must normalize. -/
theorem create_user_valid_input_succeeds_witness :
    create_user { users := [], task_lists := [], tasks := [], next_id := 1 } 0
        " alice " " Alice@Example.COM " "Alice A" .active =
      .ok ({ users := [{ id := 1, username := "alice", email := "alice@example.com",
                         full_name := "Alice A", password_hash := none, status := .active,
                         created_at := 0, updated_at := some 0 }],
             task_lists := [], tasks := [], next_id := 2 },
           { id := 1, username := "alice", email := "alice@example.com",
             full_name := "Alice A", password_hash := none, status := .active,
             created_at := 0, updated_at := some 0 }) := by
  have h := create_user_valid_input_succeeds
    { users := [], task_lists := [], tasks := [], next_id := 1 } 0
    " alice " " Alice@Example.COM " "Alice A" .active
    (by decide) (by decide) (by decide) (by decide) (by decide)
  rw [h]
  rfl

/-- C3 evidence: the `create_user` in the source accepts no password hash and
never sets one — every successfully created user record carries
`password_hash = None`. The `register` endpoint nevertheless calls
`create_user(..., password_hash=...)` (a `TypeError` at run time), and
`SQLUserRepository.create` does not copy `password_hash` into the row, so no
registration can persist a hash. -/
theorem create_user_never_stores_password_hash :
    ∀ (db : Db) (now : Int) (username email full_name : String) (status : UserStatus)
      (db' : Db) (u : User),
      create_user db now username email full_name status = .ok (db', u) →
      u.password_hash = none ∧ ∀ v ∈ db'.users, v ∈ db.users ∨ v.password_hash = none := by
  intro db now username email full_name status db' u h
  rw [create_user] at h
  split at h
  · exact absurd h (by simp)
  split at h
  · exact absurd h (by simp)
  split at h
  · exact absurd h (by simp)
  split at h
  · exact absurd h (by simp)
  split at h
  · exact absurd h (by simp)
  simp only [user_create] at h
  simp only [Except.ok.injEq, Prod.mk.injEq] at h
  obtain ⟨hdb, hu⟩ := h
  constructor
  · rw [← hu]
  · intro v hv
    rw [← hdb] at hv
    simp only [List.mem_append, List.mem_singleton] at hv
    rcases hv with hv | hv
    · exact Or.inl hv
    · right
      rw [hv]

/-- Witness for C3 at the registration test input: the created record has no
password hash. -/
theorem create_user_never_stores_password_hash_witness :
    ∃ (db' : Db) (u : User),
      create_user { users := [], task_lists := [], tasks := [], next_id := 1 } 0
          "newuser" "newuser@example.com" "New User" .active = .ok (db', u)
      ∧ u.password_hash = none := by
  refine ⟨_, _, rfl, ?_⟩
  exact (create_user_never_stores_password_hash
    { users := [], task_lists := [], tasks := [], next_id := 1 } 0
    "newuser" "newuser@example.com" "New User" .active _ _ rfl).1

/-- C4 evidence: neither `create_task` nor `update_task` validates the due
date. At `now = 1000`, creating a task with `due_date = 500` (in the past)
succeeds and stores the past date; updating an existing task to a past due
date also succeeds; and an update that leaves `due_date` unspecified
succeeds without re-validating the stored past date. The claimed
`InvalidData` rejection of past due dates never happens. -/
theorem past_due_date_writes_accepted :
    (∃ (db' : Db) (t : Task),
        create_task
          { users := [], task_lists := [{ id := 1, name := "L", description := none,
                                          created_at := 0, updated_at := none, tasks := [] }],
            tasks := [], next_id := 2 }
          1000 "T" "D" 1 .medium (some 500) none = .ok (db', t)
        ∧ t.due_date = some 500)
    ∧ (∃ (db' : Db) (t : Task),
        update_task
          { users := [], task_lists := [{ id := 1, name := "L", description := none,
                                          created_at := 0, updated_at := none, tasks := [] }],
            tasks := [{ id := 1, title := "T", description := some "D", status := .pending,
                        priority := .medium, due_date := none, task_list_id := 1,
                        assigned_user_id := none, created_at := 0, updated_at := 0 }],
            next_id := 2 }
          1000 1 none none none (some 500) none = .ok (db', t)
        ∧ t.due_date = some 500)
    ∧ (∃ (db' : Db) (t : Task),
        update_task
          { users := [], task_lists := [{ id := 1, name := "L", description := none,
                                          created_at := 0, updated_at := none, tasks := [] }],
            tasks := [{ id := 1, title := "T", description := some "D", status := .pending,
                        priority := .medium, due_date := some 100, task_list_id := 1,
                        assigned_user_id := none, created_at := 0, updated_at := 0 }],
            next_id := 2 }
          1000 1 (some "T2") none none none none = .ok (db', t)
        ∧ t.due_date = some 100) := by
  refine ⟨⟨_, _, rfl, rfl⟩, ⟨_, _, rfl, rfl⟩, ⟨_, _, rfl, rfl⟩⟩

/-- C6: a `create_task` call with non-empty (trimmed) title and description
and a positive `task_list_id` that does not resolve to a task list fails
with `EntityNotFound` — never with `DuplicateEntity`, even when the store
already holds a task with the colliding title: the task-list existence check
runs before the title-uniqueness check. -/
theorem create_task_missing_list_is_not_found :
    ∀ (db : Db) (now : Int) (title description : String) (task_list_id : Int)
      (priority : TaskPriority) (due_date : Option Int) (assigned_user_id : Option Int),
      1 ≤ (py_strip title).length →
      1 ≤ (py_strip description).length →
      0 < task_list_id →
      task_list_get_by_id db task_list_id = none →
      create_task db now title description task_list_id priority due_date assigned_user_id
          = .error .entityNotFound
      ∧ create_task db now title description task_list_id priority due_date assigned_user_id
          ≠ .error .duplicateEntity := by
  intro db now title description task_list_id priority due_date assigned_user_id h1 h2 h3 h4
  have c1 : ¬ (title = "" ∨ (py_strip title).length < 1) := by
    rintro (rfl | hlt)
    · exact absurd h1 (by decide)
    · omega
  have c2 : ¬ (description = "" ∨ (py_strip description).length < 1) := by
    rintro (rfl | hlt)
    · exact absurd h2 (by decide)
    · omega
  have : create_task db now title description task_list_id priority due_date assigned_user_id
      = .error .entityNotFound := by
    rw [create_task.eq_def, if_neg c1, if_neg c2, if_neg (by omega), h4]
  exact ⟨this, by rw [this]; exact fun hc => by cases hc⟩

/-- Witness for C6: the store already holds a task titled "T" (in list 1),
and creating "T" in the nonexistent list 2 still reports not-found, not a
duplicate. -/
theorem create_task_missing_list_is_not_found_witness :
    create_task
        { users := [], task_lists := [{ id := 1, name := "L", description := none,
                                        created_at := 0, updated_at := none, tasks := [] }],
          tasks := [{ id := 1, title := "T", description := some "D", status := .pending,
                      priority := .medium, due_date := none, task_list_id := 1,
                      assigned_user_id := none, created_at := 0, updated_at := 0 }],
          next_id := 2 }
        0 "T" "D" 2 .medium none none = .error .entityNotFound :=
  (create_task_missing_list_is_not_found
    { users := [], task_lists := [{ id := 1, name := "L", description := none,
                                    created_at := 0, updated_at := none, tasks := [] }],
      tasks := [{ id := 1, title := "T", description := some "D", status := .pending,
                  priority := .medium, due_date := none, task_list_id := 1,
                  assigned_user_id := none, created_at := 0, updated_at := 0 }],
      next_id := 2 }
    0 "T" "D" 2 .medium none none (by decide) (by decide) (by decide) rfl).1

/-- C9: assigning an existing task to a positive user id that resolves to no
user fails with `EntityNotFound`; the call performs no store write — the
embedding only produces a successor state through `task_assign_user_row`,
which is never reached — so the task keeps its stored `assigned_user_id`. -/
theorem assign_task_missing_user_is_not_found :
    ∀ (db : Db) (now : Int) (task_id user_id : Int) (t : Task),
      get_task_by_id db task_id = .ok t →
      0 < user_id →
      user_get_by_id db user_id = none →
      assign_task_to_user db now task_id (some user_id) = .error .entityNotFound
      ∧ task_get_by_id db task_id = some t := by
  intro db now task_id user_id t ht hu hm
  have hstored : task_get_by_id db task_id = some t := by
    rw [get_task_by_id] at ht
    split at ht
    · exact absurd ht (by simp)
    · revert ht
      split
      · intro ht; exact absurd ht (by simp)
      · intro ht
        next heq => rw [heq]; cases ht; rfl
  refine ⟨?_, hstored⟩
  rw [assign_task_to_user]
  simp only [ht, bind, Except.bind]
  rw [if_neg (by omega), hm]

/-- Witness for C9: a store with one task (unassigned) and no users; user 9
does not exist, the call fails with not-found and the stored task is
unchanged. -/
theorem assign_task_missing_user_is_not_found_witness :
    assign_task_to_user
        { users := [], task_lists := [{ id := 1, name := "L", description := none,
                                        created_at := 0, updated_at := none, tasks := [] }],
          tasks := [{ id := 1, title := "T", description := some "D", status := .pending,
                      priority := .medium, due_date := none, task_list_id := 1,
                      assigned_user_id := none, created_at := 0, updated_at := 0 }],
          next_id := 2 }
        1000 1 (some 9) = .error .entityNotFound :=
  (assign_task_missing_user_is_not_found
    { users := [], task_lists := [{ id := 1, name := "L", description := none,
                                    created_at := 0, updated_at := none, tasks := [] }],
      tasks := [{ id := 1, title := "T", description := some "D", status := .pending,
                  priority := .medium, due_date := none, task_list_id := 1,
                  assigned_user_id := none, created_at := 0, updated_at := 0 }],
      next_id := 2 }
    1000 1 9
    { id := 1, title := "T", description := some "D", status := .pending,
      priority := .medium, due_date := none, task_list_id := 1,
      assigned_user_id := none, created_at := 0, updated_at := 0 }
    rfl (by decide) rfl).1

/-- Helper: a successful title step rewrites exactly the title. -/
theorem update_task_title_step_ok (db : Db) (t : Task) (tid : Int) (o : Option String)
    (t1 : Task) (h : update_task_title_step db t tid o = .ok t1) :
    t1 = { t with title := apply_opt o t.title py_strip } := by
  cases o with
  | none =>
    simp only [update_task_title_step] at h
    cases h
    rfl
  | some x =>
    simp only [update_task_title_step] at h
    split at h
    · exact Except.noConfusion h
    split at h
    · exact Except.noConfusion h
    cases h
    rfl

/-- Helper: a successful description step rewrites exactly the description. -/
theorem update_task_description_step_ok (t : Task) (o : Option String)
    (t1 : Task) (h : update_task_description_step t o = .ok t1) :
    t1 = { t with description := apply_opt o t.description (fun d => some (py_strip d)) } := by
  cases o with
  | none =>
    simp only [update_task_description_step] at h
    cases h
    rfl
  | some x =>
    simp only [update_task_description_step] at h
    split at h
    · exact Except.noConfusion h
    cases h
    rfl

/-- Helper: a successful assigned-user step rewrites exactly the assignment. -/
theorem update_task_assigned_step_ok (db : Db) (t : Task) (o : Option Int)
    (t1 : Task) (h : update_task_assigned_step db t o = .ok t1) :
    t1 = { t with assigned_user_id := apply_opt o t.assigned_user_id some } := by
  cases o with
  | none =>
    simp only [update_task_assigned_step] at h
    cases h
    rfl
  | some x =>
    simp only [update_task_assigned_step] at h
    split at h
    · exact Except.noConfusion h
    split at h
    · exact Except.noConfusion h
    cases h
    rfl

/-- Helper: a successful `update_task` returns the stored task with exactly
the supplied fields rewritten (`None` leaves a field alone) and `updated_at`
refreshed. -/
theorem update_task_ok_shape
    (db : Db) (now : Int) (task_id : Int) (title description : Option String)
    (priority : Option TaskPriority) (due_date : Option Int) (assigned : Option Int)
    (t : Task) (db' : Db) (t' : Task)
    (hstored : task_get_by_id db task_id = some t)
    (hpos : ¬ task_id ≤ 0)
    (h : update_task db now task_id title description priority due_date assigned
        = .ok (db', t')) :
    t' = { t with
           title := apply_opt title t.title py_strip
           description := apply_opt description t.description (fun d => some (py_strip d))
           priority := apply_opt priority t.priority (fun p => p)
           due_date := apply_opt due_date t.due_date (fun d => some d)
           assigned_user_id := apply_opt assigned t.assigned_user_id some
           updated_at := now } := by
  have hid : t.id = task_id := by
    have := List.find?_some hstored
    simpa using this
  simp only [update_task, bind, Except.bind, get_task_by_id, if_neg hpos, hstored] at h
  cases h1 : update_task_title_step db t task_id title with
  | error e => rw [h1] at h; exact Except.noConfusion h
  | ok t1 =>
    simp only [h1] at h
    have e1 := update_task_title_step_ok db t task_id title t1 h1
    cases h2 : update_task_description_step t1 description with
    | error e => rw [h2] at h; exact Except.noConfusion h
    | ok t2 =>
      simp only [h2] at h
      have e2 := update_task_description_step_ok t1 description t2 h2
      cases priority with
      | none =>
        cases due_date with
        | none =>
          cases h3 : update_task_assigned_step db t2 assigned with
          | error e => rw [h3] at h; exact Except.noConfusion h
          | ok t3 =>
            simp only [h3] at h
            have e3 := update_task_assigned_step_ok db t2 assigned t3 h3
            subst e3; subst e2; subst e1
            simp only [task_update_row, hid] at h
            simp only [show (db.tasks.find? fun u => u.id = task_id)
                = task_get_by_id db task_id from rfl, hstored] at h
            simp only [Except.ok.injEq, Prod.mk.injEq] at h
            simp only [apply_opt, hid]
            exact h.2.symm
        | some dd =>
          cases h3 : update_task_assigned_step db { t2 with due_date := some dd } assigned with
          | error e => rw [h3] at h; exact Except.noConfusion h
          | ok t3 =>
            simp only [h3] at h
            have e3 := update_task_assigned_step_ok db { t2 with due_date := some dd } assigned t3 h3
            subst e3; subst e2; subst e1
            simp only [task_update_row, hid] at h
            simp only [show (db.tasks.find? fun u => u.id = task_id)
                = task_get_by_id db task_id from rfl, hstored] at h
            simp only [Except.ok.injEq, Prod.mk.injEq] at h
            simp only [apply_opt, hid]
            exact h.2.symm
      | some p =>
        cases due_date with
        | none =>
          cases h3 : update_task_assigned_step db { t2 with priority := p } assigned with
          | error e => rw [h3] at h; exact Except.noConfusion h
          | ok t3 =>
            simp only [h3] at h
            have e3 := update_task_assigned_step_ok db { t2 with priority := p } assigned t3 h3
            subst e3; subst e2; subst e1
            simp only [task_update_row, hid] at h
            simp only [show (db.tasks.find? fun u => u.id = task_id)
                = task_get_by_id db task_id from rfl, hstored] at h
            simp only [Except.ok.injEq, Prod.mk.injEq] at h
            simp only [apply_opt, hid]
            exact h.2.symm
        | some dd =>
          cases h3 : update_task_assigned_step db { t2 with priority := p, due_date := some dd } assigned with
          | error e => rw [h3] at h; exact Except.noConfusion h
          | ok t3 =>
            simp only [h3] at h
            have e3 := update_task_assigned_step_ok db { t2 with priority := p, due_date := some dd } assigned t3 h3
            subst e3; subst e2; subst e1
            simp only [task_update_row, hid] at h
            simp only [show (db.tasks.find? fun u => u.id = task_id)
                = task_get_by_id db task_id from rfl, hstored] at h
            simp only [Except.ok.injEq, Prod.mk.injEq] at h
            simp only [apply_opt, hid]
            exact h.2.symm

/-- C10: `update_task` treats `None` uniformly as field-not-provided. With
`assigned_user_id` absent the stored assignment is untouched while every
other supplied field is applied; and with `assigned_user_id = a` supplied the
result's assignment is `some a` — so an update can never clear an
assignment, only `assign_task_to_user` with a null user can. An error
outcome produces no successor state in the embedding, so the store is only
changed on success. -/
theorem update_task_none_is_not_provided :
    ∀ (db : Db) (now : Int) (task_id : Int) (title description : Option String)
      (priority : Option TaskPriority) (due_date : Option Int) (t : Task),
      task_get_by_id db task_id = some t →
      (∀ (db' : Db) (t' : Task),
          update_task db now task_id title description priority due_date none = .ok (db', t') →
          t'.assigned_user_id = t.assigned_user_id
          ∧ (title = none → t'.title = t.title)
          ∧ (∀ s, title = some s → t'.title = py_strip s)
          ∧ (description = none → t'.description = t.description)
          ∧ (∀ d, description = some d → t'.description = some (py_strip d))
          ∧ t'.priority = apply_opt priority t.priority (fun p => p)
          ∧ t'.due_date = apply_opt due_date t.due_date (fun d => some d)
          ∧ t'.updated_at = now)
      ∧ (∀ (a : Int) (db2 : Db) (t2 : Task),
          update_task db now task_id title description priority due_date (some a)
            = .ok (db2, t2) →
          t2.assigned_user_id = some a) := by
  intro db now task_id title description priority due_date t hstored
  constructor
  · intro db' t' h
    by_cases hle : task_id ≤ 0
    · exfalso
      simp [update_task, get_task_by_id, if_pos hle, bind, Except.bind] at h
    · have e := update_task_ok_shape db now task_id title description priority due_date none
        t db' t' hstored hle h
      subst e
      refine ⟨rfl, ?_, ?_, ?_, ?_, rfl, rfl, rfl⟩
      · rintro rfl; rfl
      · rintro s rfl; rfl
      · rintro rfl; rfl
      · rintro d rfl; rfl
  · intro a db2 t2 h
    by_cases hle : task_id ≤ 0
    · exfalso
      simp [update_task, get_task_by_id, if_pos hle, bind, Except.bind] at h
    · have e := update_task_ok_shape db now task_id title description priority due_date (some a)
        t db2 t2 hstored hle h
      subst e
      rfl

/-- Witness for C10: stored task 1 is assigned to user 3; an update that
supplies a title and a priority but no assignment keeps the assignment and
applies the other fields; supplying user 4 sets the assignment. -/
theorem update_task_none_is_not_provided_witness :
    (∃ (db' : Db) (t' : Task),
      update_task
        { users := [{ id := 4, username := "dana", email := "dana@example.com",
                      full_name := "Dana D", password_hash := none, status := .active,
                      created_at := 0, updated_at := none }],
          task_lists := [{ id := 1, name := "L", description := none,
                           created_at := 0, updated_at := none, tasks := [] }],
          tasks := [{ id := 1, title := "Old", description := some "D", status := .pending,
                      priority := .medium, due_date := some 10, task_list_id := 1,
                      assigned_user_id := some 3, created_at := 0, updated_at := 0 }],
          next_id := 5 }
        50 1 (some " New ") none (some .high) none none = .ok (db', t')
      ∧ t'.assigned_user_id = some 3 ∧ t'.title = py_strip " New "
      ∧ t'.priority = .high ∧ t'.updated_at = 50)
    ∧ (∃ (db2 : Db) (t2 : Task),
      update_task
        { users := [{ id := 4, username := "dana", email := "dana@example.com",
                      full_name := "Dana D", password_hash := none, status := .active,
                      created_at := 0, updated_at := none }],
          task_lists := [{ id := 1, name := "L", description := none,
                           created_at := 0, updated_at := none, tasks := [] }],
          tasks := [{ id := 1, title := "Old", description := some "D", status := .pending,
                      priority := .medium, due_date := some 10, task_list_id := 1,
                      assigned_user_id := some 3, created_at := 0, updated_at := 0 }],
          next_id := 5 }
        50 1 none none none none (some 4) = .ok (db2, t2)
      ∧ t2.assigned_user_id = some 4) := by
  constructor
  · refine ⟨_, _, rfl, ?_⟩
    have H := (update_task_none_is_not_provided
      { users := [{ id := 4, username := "dana", email := "dana@example.com",
                    full_name := "Dana D", password_hash := none, status := .active,
                    created_at := 0, updated_at := none }],
        task_lists := [{ id := 1, name := "L", description := none,
                         created_at := 0, updated_at := none, tasks := [] }],
        tasks := [{ id := 1, title := "Old", description := some "D", status := .pending,
                    priority := .medium, due_date := some 10, task_list_id := 1,
                    assigned_user_id := some 3, created_at := 0, updated_at := 0 }],
        next_id := 5 }
      50 1 (some " New ") none (some .high) none
      { id := 1, title := "Old", description := some "D", status := .pending,
        priority := .medium, due_date := some 10, task_list_id := 1,
        assigned_user_id := some 3, created_at := 0, updated_at := 0 }
      rfl).1 _ _ rfl
    exact ⟨H.1, H.2.2.1 " New " rfl, H.2.2.2.2.2.1, H.2.2.2.2.2.2.2⟩
  · refine ⟨_, _, rfl, ?_⟩
    exact (update_task_none_is_not_provided
      { users := [{ id := 4, username := "dana", email := "dana@example.com",
                    full_name := "Dana D", password_hash := none, status := .active,
                    created_at := 0, updated_at := none }],
        task_lists := [{ id := 1, name := "L", description := none,
                         created_at := 0, updated_at := none, tasks := [] }],
        tasks := [{ id := 1, title := "Old", description := some "D", status := .pending,
                    priority := .medium, due_date := some 10, task_list_id := 1,
                    assigned_user_id := some 3, created_at := 0, updated_at := 0 }],
        next_id := 5 }
      50 1 none none none none
      { id := 1, title := "Old", description := some "D", status := .pending,
        priority := .medium, due_date := some 10, task_list_id := 1,
        assigned_user_id := some 3, created_at := 0, updated_at := 0 }
      rfl).2 4 _ _ rfl

/-- Helper: a task created by `create_task` carries exactly the requested
assignment. -/
theorem create_task_ok_assigned
    (db : Db) (now : Int) (title description : String) (task_list_id : Int)
    (priority : TaskPriority) (due_date : Option Int) (assigned : Option Int)
    (db' : Db) (t : Task)
    (h : create_task db now title description task_list_id priority due_date assigned
        = .ok (db', t)) :
    t.assigned_user_id = assigned := by
  cases assigned with
  | none =>
    simp only [create_task, task_create_row] at h
    split at h
    · exact Except.noConfusion h
    split at h
    · exact Except.noConfusion h
    split at h
    · exact Except.noConfusion h
    split at h
    · exact Except.noConfusion h
    split at h
    · exact Except.noConfusion h
    simp only [Except.ok.injEq, Prod.mk.injEq] at h
    rw [← h.2]
  | some a =>
    simp only [create_task, task_create_row] at h
    split at h
    · exact Except.noConfusion h
    split at h
    · exact Except.noConfusion h
    split at h
    · exact Except.noConfusion h
    split at h
    · exact Except.noConfusion h
    split at h
    · exact Except.noConfusion h
    split at h
    · exact Except.noConfusion h
    split at h
    · exact Except.noConfusion h
    simp only [Except.ok.injEq, Prod.mk.injEq] at h
    rw [← h.2]

/-- C5: the notification around task creation is fire-and-forget. The
creation outcome is identical whatever the notifier returns; on success the
persisted task and store are exactly those of the plain `create_task`, a
notification is triggered exactly when the created task has an assignee, and
in particular every successful creation with a non-null `assigned_user_id`
triggers one. -/
theorem create_task_notification_fire_and_forget :
    ∀ (db : Db) (now : Int) (title description : String) (task_list_id : Int)
      (priority : TaskPriority) (due_date : Option Int) (assigned_user_id : Option Int),
      (∀ b1 b2 : Bool,
        create_task_notify db now title description task_list_id priority due_date
            assigned_user_id b1
          = create_task_notify db now title description task_list_id priority due_date
            assigned_user_id b2)
      ∧ (∀ (b : Bool) (db' : Db) (t : Task) (sent : Bool),
          create_task_notify db now title description task_list_id priority due_date
              assigned_user_id b = .ok (db', t, sent) →
          create_task db now title description task_list_id priority due_date assigned_user_id
              = .ok (db', t)
          ∧ (sent = true ↔ t.assigned_user_id ≠ none)
          ∧ (assigned_user_id ≠ none → sent = true)) := by
  intro db now title description task_list_id priority due_date assigned_user_id
  constructor
  · intro b1 b2
    rfl
  · intro b db' t sent h
    cases hc : create_task db now title description task_list_id priority due_date
        assigned_user_id with
    | error e =>
      rw [create_task_notify.eq_def] at h
      rw [hc] at h
      exact Except.noConfusion h
    | ok pr =>
      obtain ⟨db1, t1⟩ := pr
      have ha := create_task_ok_assigned db now title description task_list_id priority
        due_date assigned_user_id db1 t1 hc
      rw [create_task_notify.eq_def] at h
      simp only [hc] at h
      cases hau : t1.assigned_user_id with
      | none =>
        simp only [hau] at h
        simp only [Except.ok.injEq, Prod.mk.injEq] at h
        obtain ⟨h1, h2, h3⟩ := h
        subst h1; subst h2; subst h3
        refine ⟨rfl, ?_, ?_⟩
        · simp [hau]
        · intro hne
          rw [← ha, hau] at hne
          exact absurd rfl hne
      | some a =>
        simp only [hau] at h
        simp only [Except.ok.injEq, Prod.mk.injEq] at h
        obtain ⟨h1, h2, h3⟩ := h
        subst h1; subst h2; subst h3
        refine ⟨rfl, ?_, fun _ => rfl⟩
        simp [hau]

/-- Witness for C5: creating an assigned task succeeds identically under a
failing and a succeeding notifier, and reports the notification as
triggered. -/
theorem create_task_notification_fire_and_forget_witness :
    (create_task_notify
        { users := [{ id := 4, username := "dana", email := "dana@example.com",
                      full_name := "Dana D", password_hash := none, status := .active,
                      created_at := 0, updated_at := none }],
          task_lists := [{ id := 1, name := "L", description := none,
                           created_at := 0, updated_at := none, tasks := [] }],
          tasks := [], next_id := 5 }
        0 "T" "D" 1 .medium none (some 4) false
      = create_task_notify
        { users := [{ id := 4, username := "dana", email := "dana@example.com",
                      full_name := "Dana D", password_hash := none, status := .active,
                      created_at := 0, updated_at := none }],
          task_lists := [{ id := 1, name := "L", description := none,
                           created_at := 0, updated_at := none, tasks := [] }],
          tasks := [], next_id := 5 }
        0 "T" "D" 1 .medium none (some 4) true)
    ∧ (∃ (db' : Db) (t : Task),
        create_task_notify
          { users := [{ id := 4, username := "dana", email := "dana@example.com",
                        full_name := "Dana D", password_hash := none, status := .active,
                        created_at := 0, updated_at := none }],
            task_lists := [{ id := 1, name := "L", description := none,
                             created_at := 0, updated_at := none, tasks := [] }],
            tasks := [], next_id := 5 }
          0 "T" "D" 1 .medium none (some 4) false = .ok (db', t, true)
        ∧ create_task
            { users := [{ id := 4, username := "dana", email := "dana@example.com",
                          full_name := "Dana D", password_hash := none, status := .active,
                          created_at := 0, updated_at := none }],
              task_lists := [{ id := 1, name := "L", description := none,
                               created_at := 0, updated_at := none, tasks := [] }],
              tasks := [], next_id := 5 }
            0 "T" "D" 1 .medium none (some 4) = .ok (db', t)) := by
  constructor
  · exact (create_task_notification_fire_and_forget
      { users := [{ id := 4, username := "dana", email := "dana@example.com",
                    full_name := "Dana D", password_hash := none, status := .active,
                    created_at := 0, updated_at := none }],
        task_lists := [{ id := 1, name := "L", description := none,
                         created_at := 0, updated_at := none, tasks := [] }],
        tasks := [], next_id := 5 }
      0 "T" "D" 1 .medium none (some 4)).1 false true
  · refine ⟨_, _, rfl, ?_⟩
    exact ((create_task_notification_fire_and_forget
      { users := [{ id := 4, username := "dana", email := "dana@example.com",
                    full_name := "Dana D", password_hash := none, status := .active,
                    created_at := 0, updated_at := none }],
        task_lists := [{ id := 1, name := "L", description := none,
                         created_at := 0, updated_at := none, tasks := [] }],
        tasks := [], next_id := 5 }
      0 "T" "D" 1 .medium none (some 4)).2 false _ _ _ rfl).1

/-- Helper: the repository filtered query with no filters is exactly the
full task set of the list. -/
theorem task_get_filtered_tasks_no_filters (db : Db) (task_list_id : Int) :
    task_get_filtered_tasks db task_list_id none none none
      = task_get_by_task_list_id db task_list_id := rfl

/-- C1: for every existing task list the completion-statistics computation
returns `completed / total * 100` where both counts range over the full
(unfiltered) task set of the list, and exactly `0` when the list has no
tasks; the handler that also accepts status/priority/assignee filters
recomputes the percentage from a filterless query, so the reported
percentage is independent of the caller's filters. -/
theorem completion_stats_unfiltered :
    ∀ (db : Db) (task_list_id : Int) (tl : TaskList),
      task_list_get_by_id db task_list_id = some tl →
      ∃ pct : ℚ,
        get_task_list_with_completion_stats db task_list_id
          = .ok ({ tl with tasks := task_get_by_task_list_id db task_list_id }, pct)
        ∧ (0 < (task_get_by_task_list_id db task_list_id).length →
            pct = (((task_get_by_task_list_id db task_list_id).filter
                      (fun t => t.status = .completed)).length : ℚ)
                  / ((task_get_by_task_list_id db task_list_id).length : ℚ) * 100)
        ∧ ((task_get_by_task_list_id db task_list_id).length = 0 → pct = 0)
        ∧ task_get_by_task_list_id db task_list_id
            = db.tasks.filter (fun t => t.task_list_id = task_list_id)
        ∧ (∀ (status : Option TaskStatus) (priority : Option TaskPriority)
             (assigned_user_id : Option Int) (tasks : List Task) (pct' : ℚ),
            endpoint_tasks_with_stats db task_list_id status priority assigned_user_id
              = .ok (tasks, pct') → pct' = pct) := by
  intro db task_list_id tl h
  refine ⟨if 0 < (task_get_by_task_list_id db task_list_id).length then
      (((task_get_by_task_list_id db task_list_id).filter
          (fun t => t.status = .completed)).length : ℚ)
        / ((task_get_by_task_list_id db task_list_id).length : ℚ) * 100
    else 0, ?_, ?_, ?_, rfl, ?_⟩
  · simp only [get_task_list_with_completion_stats, h]
  · intro hpos
    rw [if_pos hpos]
  · intro hz
    rw [if_neg (by omega)]
  · intro status priority assigned_user_id tasks pct' hep
    by_cases hle : task_list_id ≤ 0
    · rw [endpoint_tasks_with_stats] at hep
      simp only [get_tasks_by_list_id, if_pos hle, bind, Except.bind] at hep
      exact Except.noConfusion hep
    · rw [endpoint_tasks_with_stats] at hep
      cases hc : get_tasks_by_list_id db task_list_id status priority assigned_user_id with
      | error e =>
        simp only [bind, Except.bind, hc] at hep
        exact Except.noConfusion hep
      | ok ts =>
        have h2 : get_tasks_by_list_id db task_list_id none none none
            = .ok (task_get_filtered_tasks db task_list_id none none none) := by
          simp [get_tasks_by_list_id, if_neg hle, h]
        simp only [bind, Except.bind, hc, h2, pure, Except.pure] at hep
        simp only [task_get_filtered_tasks_no_filters] at hep
        simp only [Except.ok.injEq, Prod.mk.injEq] at hep
        exact hep.2.symm

/-- Witness for C1: a list with 4 stored tasks of which 1 is completed; the
stats call succeeds on it, and the spec example value 1/4 of 100. -/
theorem completion_stats_unfiltered_witness :
    ∃ pct : ℚ,
      get_task_list_with_completion_stats
        { users := [],
          task_lists := [{ id := 1, name := "L", description := none,
                           created_at := 0, updated_at := none, tasks := [] }],
          tasks := [{ id := 1, title := "A", description := some "D", status := .completed,
                      priority := .medium, due_date := none, task_list_id := 1,
                      assigned_user_id := none, created_at := 0, updated_at := 0 },
                    { id := 2, title := "B", description := some "D", status := .pending,
                      priority := .medium, due_date := none, task_list_id := 1,
                      assigned_user_id := none, created_at := 0, updated_at := 0 },
                    { id := 3, title := "C", description := some "D", status := .inProgress,
                      priority := .medium, due_date := none, task_list_id := 1,
                      assigned_user_id := none, created_at := 0, updated_at := 0 },
                    { id := 4, title := "E", description := some "D", status := .cancelled,
                      priority := .medium, due_date := none, task_list_id := 1,
                      assigned_user_id := none, created_at := 0, updated_at := 0 }],
          next_id := 5 } 1
        = .ok ({ id := 1, name := "L", description := none, created_at := 0,
                 updated_at := none,
                 tasks := task_get_by_task_list_id
                   { users := [],
                     task_lists := [{ id := 1, name := "L", description := none,
                                      created_at := 0, updated_at := none, tasks := [] }],
                     tasks := [{ id := 1, title := "A", description := some "D",
                                 status := .completed, priority := .medium, due_date := none,
                                 task_list_id := 1, assigned_user_id := none,
                                 created_at := 0, updated_at := 0 },
                               { id := 2, title := "B", description := some "D",
                                 status := .pending, priority := .medium, due_date := none,
                                 task_list_id := 1, assigned_user_id := none,
                                 created_at := 0, updated_at := 0 },
                               { id := 3, title := "C", description := some "D",
                                 status := .inProgress, priority := .medium, due_date := none,
                                 task_list_id := 1, assigned_user_id := none,
                                 created_at := 0, updated_at := 0 },
                               { id := 4, title := "E", description := some "D",
                                 status := .cancelled, priority := .medium, due_date := none,
                                 task_list_id := 1, assigned_user_id := none,
                                 created_at := 0, updated_at := 0 }],
                     next_id := 5 } 1 }, pct) := by
  obtain ⟨pct, h1, -⟩ := completion_stats_unfiltered
    { users := [],
      task_lists := [{ id := 1, name := "L", description := none,
                       created_at := 0, updated_at := none, tasks := [] }],
      tasks := [{ id := 1, title := "A", description := some "D", status := .completed,
                  priority := .medium, due_date := none, task_list_id := 1,
                  assigned_user_id := none, created_at := 0, updated_at := 0 },
                { id := 2, title := "B", description := some "D", status := .pending,
                  priority := .medium, due_date := none, task_list_id := 1,
                  assigned_user_id := none, created_at := 0, updated_at := 0 },
                { id := 3, title := "C", description := some "D", status := .inProgress,
                  priority := .medium, due_date := none, task_list_id := 1,
                  assigned_user_id := none, created_at := 0, updated_at := 0 },
                { id := 4, title := "E", description := some "D", status := .cancelled,
                  priority := .medium, due_date := none, task_list_id := 1,
                  assigned_user_id := none, created_at := 0, updated_at := 0 }],
      next_id := 5 } 1
    { id := 1, name := "L", description := none, created_at := 0, updated_at := none,
      tasks := [] } rfl
  exact ⟨pct, h1⟩

end App
